import Mathlib

/-!
Verification development for an A/B-test experiment-analysis engine
(`utils.py`): sample-size planning, sample-ratio-mismatch (SRM) checking,
primary conversion-rate analysis, and per-segment analysis.

Numeric model: IEEE doubles are modelled by exact rationals (`ℚ`) extended
with the non-finite values `inf`, `-inf` and `nan` (`NpVal`) that numpy
arithmetic produces on division by zero.  Plain-Python float division by
zero raises an exception instead; the one place where that happens (the SRM
check on an empty dataset, where both counts are plain-Python ints) is
modelled as an error result.

External statistical primitives (`np.sqrt`, `scipy.stats.norm.ppf`,
`scipy.stats.norm.cdf`, `scipy.stats.chi2.cdf(·, df=1)`) are abstracted as
a record of rational-valued functions (`StatPrims`), mirroring the
StatPrimitives leaf component: every result below is proved for an
arbitrary instantiation, with hypotheses naming exactly the analytic facts
used (e.g. exactness of a square root at the argument in question).
-/

namespace ABTest

/-- numpy-style extended value: a finite rational, `inf`, `-inf`, or `nan`. -/
inductive NpVal where
  | fin (q : ℚ)
  | inf
  | ninf
  | nan
deriving DecidableEq

/-- Whether an extended value is finite. -/
def NpVal.isFinite : NpVal → Bool
  | .fin _ => true
  | _ => false

/-- numpy float64 division of finite values: division by zero yields
`inf`, `-inf` or `nan` (with a runtime warning) rather than raising. -/
def npDivQ (a b : ℚ) : NpVal :=
  if b ≠ 0 then .fin (a / b)
  else if 0 < a then .inf
  else if a < 0 then .ninf
  else .nan

/-- IEEE negation on extended values. -/
def npNeg : NpVal → NpVal
  | .fin q => .fin (-q)
  | .inf => .ninf
  | .ninf => .inf
  | .nan => .nan

/-- IEEE addition on extended values. -/
def npAdd : NpVal → NpVal → NpVal
  | .nan, _ => .nan
  | _, .nan => .nan
  | .fin a, .fin b => .fin (a + b)
  | .inf, .ninf => .nan
  | .ninf, .inf => .nan
  | .inf, _ => .inf
  | _, .inf => .inf
  | .ninf, _ => .ninf
  | _, .ninf => .ninf

/-- IEEE subtraction on extended values. -/
def npSub (a b : NpVal) : NpVal := npAdd a (npNeg b)

/-- IEEE multiplication on extended values. -/
def npMul : NpVal → NpVal → NpVal
  | .nan, _ => .nan
  | _, .nan => .nan
  | .fin a, .fin b => .fin (a * b)
  | .inf, .fin b => if 0 < b then .inf else if b < 0 then .ninf else .nan
  | .fin a, .inf => if 0 < a then .inf else if a < 0 then .ninf else .nan
  | .ninf, .fin b => if 0 < b then .ninf else if b < 0 then .inf else .nan
  | .fin a, .ninf => if 0 < a then .ninf else if a < 0 then .inf else .nan
  | .inf, .inf => .inf
  | .inf, .ninf => .ninf
  | .ninf, .inf => .ninf
  | .ninf, .ninf => .inf

/-- IEEE comparison `v > c` against a finite rational; `nan > c` is false. -/
def npGtBool : NpVal → ℚ → Bool
  | .fin q, c => decide (c < q)
  | .inf, _ => true
  | .ninf, _ => false
  | .nan, _ => false

/-- IEEE comparison `v < c` against a finite rational; `nan < c` is false. -/
def npLtBool : NpVal → ℚ → Bool
  | .fin q, c => decide (q < c)
  | .inf, _ => false
  | .ninf, _ => true
  | .nan, _ => false

/-- Round-half-to-even to an integer, the rounding used by
`numpy.round`/`pandas.DataFrame.round`. -/
def roundHalfEven (q : ℚ) : ℤ :=
  let f := ⌊q⌋
  let r := q - f
  if r < 1 / 2 then f
  else if 1 / 2 < r then f + 1
  else if Even f then f else f + 1

/-- `.round(4)`: round to 4 decimal places, half to even. -/
def round4 (q : ℚ) : ℚ := (roundHalfEven (q * 10000) : ℚ) / 10000

/-- Abstract statistical primitives (the StatPrimitives leaf component):
`np.sqrt`, `scipy.stats.norm.ppf`, `scipy.stats.norm.cdf`, and
`scipy.stats.chi2.cdf(·, df=1)`, as exact rational-valued functions. -/
structure StatPrims where
  sqrt : ℚ → ℚ
  normPpf : ℚ → ℚ
  normCdf : ℚ → ℚ
  chi2cdf1 : ℚ → ℚ

/-- `scipy.stats.chi2.cdf(x, df=1)` lifted to extended values: the scipy CDF
evaluates to 1 at `inf`, 0 at `-inf`, and `nan` at `nan`. -/
def npChi2cdf1 (P : StatPrims) : NpVal → NpVal
  | .fin x => .fin (P.chi2cdf1 x)
  | .inf => .fin 1
  | .ninf => .fin 0
  | .nan => .nan

/-- The `variant` column: the dataset invariant restricts it to these two
values. -/
inductive Variant where
  | control
  | treatment
deriving DecidableEq

/-- One experiment record (one row of the DataFrame): `variant`,
`converted`, `order_value`, and one caller-chosen categorical segment
attribute. -/
structure Record where
  variant : Variant
  converted : Bool
  order_value : ℚ
  segment : String
deriving DecidableEq

/-- The experiment dataset: an ordered collection of records. -/
abbrev Dataset := List Record

/-- Python-level failure modes surfaced by the analysis functions:
`ZeroDivisionError` from plain-Python float division by zero, and
`KeyError k` from a failed pandas `.loc[k]` lookup. -/
inductive PyError where
  | zeroDivision
  | missingKey (k : String)
deriving DecidableEq

instance exceptDecEq {ε α : Type} [DecidableEq ε] [DecidableEq α] :
    DecidableEq (Except ε α) := fun a b =>
  match a, b with
  | .ok a, .ok b =>
    if h : a = b then isTrue (by rw [h]) else isFalse (fun hab => h (Except.ok.inj hab))
  | .error a, .error b =>
    if h : a = b then isTrue (by rw [h]) else isFalse (fun hab => h (Except.error.inj hab))
  | .ok _, .error _ => isFalse (fun hab => Except.noConfusion hab)
  | .error _, .ok _ => isFalse (fun hab => Except.noConfusion hab)

/-- `df['variant'].value_counts().get(v, 0)`. -/
def countVariant (df : Dataset) (v : Variant) : ℕ :=
  (df.filter (fun r => r.variant = v)).length

/-- `calculate_sample_size(baseline_rate, minimum_effect, alpha, power)`:

    p1 = baseline_rate
    p2 = baseline_rate + minimum_effect
    p_pooled = (p1 + p2) / 2
    se_coefficient = np.sqrt(2 * p_pooled * (1 - p_pooled))
    z_alpha = stats.norm.ppf(1 - alpha/2)
    z_beta = stats.norm.ppf(power)
    n = ((z_alpha + z_beta) * se_coefficient / minimum_effect) ** 2
    return int(np.ceil(n)) -/
def calculate_sample_size (P : StatPrims)
    (baseline_rate minimum_effect alpha power : ℚ) : ℤ :=
  let p1 := baseline_rate
  let p2 := baseline_rate + minimum_effect
  let p_pooled := (p1 + p2) / 2
  let se_coefficient := P.sqrt (2 * p_pooled * (1 - p_pooled))
  let z_alpha := P.normPpf (1 - alpha / 2)
  let z_beta := P.normPpf power
  let n := ((z_alpha + z_beta) * se_coefficient / minimum_effect) ^ 2
  ⌈n⌉

/-- Values computed by `check_sample_ratio_mismatch` when it does not raise:
the two observed counts, the chi-square statistic, the p-value (both printed),
and `passed = p_value > alpha` (the return value). -/
structure SRMOut where
  control_count : ℕ
  treatment_count : ℕ
  chi2_stat : NpVal
  p_value : NpVal
  passed : Bool
deriving DecidableEq

/-- `check_sample_ratio_mismatch(df, expected_ratio, alpha)` (the second
parameter is named `expected_split` here).  Counts per variant come from
`value_counts().get(·, 0)`.  When both counts are absent (`total = 0`) the
counts are plain-Python ints, so `(0 - 0.0)**2 / 0.0` raises
`ZeroDivisionError`; otherwise the counts are numpy int64 scalars and the
whole computation happens in numpy float64, where division by a zero
expected cell yields `inf`/`nan` with only a runtime warning. -/
def check_sample_ratio_mismatch (P : StatPrims) (df : Dataset)
    (expected_split alpha : ℚ) : Except PyError SRMOut :=
  let control_count := countVariant df .control
  let treatment_count := countVariant df .treatment
  let total := control_count + treatment_count
  let expected_control : ℚ := (total : ℚ) * expected_split
  let expected_treatment : ℚ := (total : ℚ) * (1 - expected_split)
  if total = 0 then .error .zeroDivision
  else
    let chi2_stat :=
      npAdd (npDivQ (((control_count : ℚ) - expected_control) ^ 2) expected_control)
            (npDivQ (((treatment_count : ℚ) - expected_treatment) ^ 2) expected_treatment)
    let p_value := npSub (.fin 1) (npChi2cdf1 P chi2_stat)
    .ok { control_count := control_count, treatment_count := treatment_count,
          chi2_stat := chi2_stat, p_value := p_value,
          passed := npGtBool p_value alpha }

/-- The chi-square statistic exactly as the specification words it: the sum
over the two cells of (observed − expected)² / expected, with expected
counts `total · expected_ratio` and `total · (1 − expected_ratio)`.  Stated
from the spec, to be compared against what the code computes. -/
def specSRMStatistic (df : Dataset) (expected_split : ℚ) : ℚ :=
  let observed_control : ℚ := (countVariant df .control : ℚ)
  let observed_treatment : ℚ := (countVariant df .treatment : ℚ)
  let total := observed_control + observed_treatment
  (observed_control - total * expected_split) ^ 2 / (total * expected_split) +
  (observed_treatment - total * (1 - expected_split)) ^ 2 / (total * (1 - expected_split))

/-- `statsmodels.stats.proportion.proportions_ztest([count1, count0],
[nobs1, nobs0])` with the default pooled variance and two-sided
alternative:

    p_pool = (count1 + count0) / (nobs1 + nobs0)
    std = sqrt(p_pool * (1 - p_pool) * (1/nobs1 + 1/nobs0))
    zstat = (count1/nobs1 - count0/nobs0) / std
    p_value = 2 * (1 - normal_cdf(|zstat|))

When `std = 0` (all-zero or all-one pooled proportion) the numpy division
produces `nan` (or `±inf`), and the survival function maps `±inf` to a zero
p-value and `nan` to `nan`. -/
def proportions_ztest (P : StatPrims) (count1 nobs1 count0 nobs0 : ℚ) :
    NpVal × NpVal :=
  let p_pool := (count1 + count0) / (nobs1 + nobs0)
  let std := P.sqrt (p_pool * (1 - p_pool) * (1 / nobs1 + 1 / nobs0))
  let zstat := npDivQ (count1 / nobs1 - count0 / nobs0) std
  let p_value : NpVal :=
    match zstat with
    | .fin z => .fin (2 * (1 - P.normCdf |z|))
    | .inf => .fin 0
    | .ninf => .fin 0
    | .nan => .nan
  (zstat, p_value)

/-- One row of `conversion_summary`
(`df.groupby('variant').agg(...).round(4)` plus `revenue_per_user`):
`sessions` = count, `conversions` = sum of `converted`,
`conversion_rate` = mean of `converted` rounded to 4 decimals,
`total_revenue` = sum of `order_value` rounded to 4 decimals, and
`revenue_per_user` = (rounded) `total_revenue / sessions` (added after
the rounding, hence itself unrounded). -/
structure VariantSummary where
  sessions : ℕ
  conversions : ℕ
  conversion_rate : ℚ
  total_revenue : ℚ
  revenue_per_user : ℚ
deriving DecidableEq

/-- Number of converted records in a group. -/
def countConversions (g : Dataset) : ℕ :=
  (g.filter (fun r => r.converted)).length

/-- Sum of `order_value` over a group. -/
def sumRevenue (g : Dataset) : ℚ :=
  (g.map (fun r => r.order_value)).sum

/-- The `conversion_summary` row for one variant; `none` when the variant
has no records (groupby produces no such row, so a later `.loc` lookup
raises `KeyError`). -/
def summarizeVariant (df : Dataset) (v : Variant) : Option VariantSummary :=
  let g := df.filter (fun r => r.variant = v)
  if g.length = 0 then none
  else some
    { sessions := g.length
      conversions := countConversions g
      conversion_rate := round4 ((countConversions g : ℚ) / (g.length : ℚ))
      total_revenue := round4 (sumRevenue g)
      revenue_per_user := round4 (sumRevenue g) / (g.length : ℚ) }

/-- Values computed by `analyze_conversion_rate`: the two summary rows, the
exact (unrounded) rates of lines 106-107, the z-test outcome, and the two
lift figures.  The Python function returns
`(conversion_summary, p_value, absolute_lift, relative_lift)` and prints
the rest; all of these fields are computed (and hence observable) on every
successful call. -/
structure AnalyzeOut where
  summary_control : VariantSummary
  summary_treatment : VariantSummary
  control_rate : ℚ
  treatment_rate : ℚ
  z_stat : NpVal
  p_value : NpVal
  absolute_lift : ℚ
  relative_lift : NpVal
deriving DecidableEq

/-- `analyze_conversion_rate(df)`.  Lines 101-104 read the two summary rows
with `.loc['control', ...]` then `.loc['treatment', ...]`: a missing variant
raises `KeyError` at that point (control first).  All subsequent arithmetic
is numpy float64, so a zero `control_rate` makes
`relative_lift = (treatment_rate / control_rate - 1) * 100` evaluate to
`inf`/`nan` rather than raising; the confidence intervals and the post-hoc
power of lines 116-139 are printed only, involve no further control flow or
failure mode, and are omitted here. -/
def analyze_conversion_rate (P : StatPrims) (df : Dataset) :
    Except PyError AnalyzeOut :=
  match summarizeVariant df .control, summarizeVariant df .treatment with
  | none, _ => .error (.missingKey "control")
  | some _, none => .error (.missingKey "treatment")
  | some c, some t =>
    let control_rate := (c.conversions : ℚ) / (c.sessions : ℚ)
    let treatment_rate := (t.conversions : ℚ) / (t.sessions : ℚ)
    let zp := proportions_ztest P (t.conversions : ℚ) (t.sessions : ℚ)
                (c.conversions : ℚ) (c.sessions : ℚ)
    let absolute_lift := treatment_rate - control_rate
    let relative_lift := npMul (npSub (npDivQ treatment_rate control_rate) (.fin 1)) (.fin 100)
    .ok { summary_control := c, summary_treatment := t,
          control_rate := control_rate, treatment_rate := treatment_rate,
          z_stat := zp.1, p_value := zp.2,
          absolute_lift := absolute_lift, relative_lift := relative_lift }

/-- One row appended to `segment_results` for a segment that passes the
minimum-sample gate. -/
structure SegmentResult where
  segment : String
  control_sessions : ℕ
  treatment_sessions : ℕ
  control_rate : ℚ
  treatment_rate : ℚ
  absolute_lift : ℚ
  relative_lift : ℚ
  p_value : NpVal
  significant : Bool
deriving DecidableEq

/-- One line printed by the segmentation loop: either the per-segment test
summary or the "Insufficient sample size for reliable testing" notice. -/
inductive SegEvent where
  | testedLine (segment : String)
  | insufficientLine (segment : String)
deriving DecidableEq

/-- `df[df[segment_col] == segment]`, with the segment column given as an
accessor on records. -/
def segmentData (df : Dataset) (col : Record → String) (s : String) : Dataset :=
  df.filter (fun r => col r = s)

/-- The control subset of one segment. -/
def segControl (df : Dataset) (col : Record → String) (s : String) : Dataset :=
  (segmentData df col s).filter (fun r => r.variant = Variant.control)

/-- The treatment subset of one segment. -/
def segTreatment (df : Dataset) (col : Record → String) (s : String) : Dataset :=
  (segmentData df col s).filter (fun r => r.variant = Variant.treatment)

/-- The gate of lines 201-202: the segment is tested only when both session
counts reach `min_sample_size` and both conversion counts reach 5. -/
def segGate (df : Dataset) (col : Record → String) (mss : ℕ) (s : String) : Prop :=
  mss ≤ (segControl df col s).length ∧ mss ≤ (segTreatment df col s).length ∧
  5 ≤ countConversions (segControl df col s) ∧
  5 ≤ countConversions (segTreatment df col s)

instance (df : Dataset) (col : Record → String) (mss : ℕ) (s : String) :
    Decidable (segGate df col mss s) := by
  unfold segGate; infer_instance

/-- The body of the segmentation loop for one segment value: `some` row
exactly when the gate passes (in which case the two-proportion z-test runs
and `relative_lift` falls back to 0 on a zero control rate), `none`
otherwise. -/
def segStep (P : StatPrims) (df : Dataset) (col : Record → String) (mss : ℕ)
    (s : String) : Option SegmentResult :=
  let control_segment := segControl df col s
  let treatment_segment := segTreatment df col s
  let control_conversions := countConversions control_segment
  let control_sessions := control_segment.length
  let treatment_conversions := countConversions treatment_segment
  let treatment_sessions := treatment_segment.length
  if segGate df col mss s then
    let control_rate := (control_conversions : ℚ) / (control_sessions : ℚ)
    let treatment_rate := (treatment_conversions : ℚ) / (treatment_sessions : ℚ)
    let zp := proportions_ztest P (treatment_conversions : ℚ) (treatment_sessions : ℚ)
                (control_conversions : ℚ) (control_sessions : ℚ)
    let absolute_lift := treatment_rate - control_rate
    let relative_lift :=
      if 0 < control_rate then (treatment_rate / control_rate - 1) * 100 else 0
    some { segment := s, control_sessions := control_sessions,
           treatment_sessions := treatment_sessions,
           control_rate := control_rate, treatment_rate := treatment_rate,
           absolute_lift := absolute_lift, relative_lift := relative_lift,
           p_value := zp.2, significant := npLtBool zp.2 (1 / 20) }
  else none

/-- First-seen deduplication, as `pandas.Series.unique()` orders segment
values. -/
def firstSeenAux : List String → List String → List String
  | [], _ => []
  | a :: rest, seen =>
    if a ∈ seen then firstSeenAux rest seen
    else a :: firstSeenAux rest (a :: seen)

/-- `df[segment_col].unique()`: distinct segment values in first-seen order. -/
def uniqueSegments (df : Dataset) (col : Record → String) : List String :=
  firstSeenAux (df.map col) []

/-- The segmentation loop over a list of segment values, returning the
accumulated `segment_results` rows together with the printed per-segment
lines. -/
def segLoop (P : StatPrims) (df : Dataset) (col : Record → String) (mss : ℕ) :
    List String → List SegmentResult × List SegEvent
  | [] => ([], [])
  | s :: rest =>
    let tail := segLoop P df col mss rest
    match segStep P df col mss s with
    | some r => (r :: tail.1, SegEvent.testedLine s :: tail.2)
    | none => (tail.1, SegEvent.insufficientLine s :: tail.2)

/-- `segmentation_analysis(df, segment_col, min_sample_size)`: iterates the
segment values in first-seen order; the first component is the returned
`pd.DataFrame(segment_results)` (tested rows only), the second is the
sequence of printed per-segment lines. -/
def segmentation_analysis (P : StatPrims) (df : Dataset)
    (col : Record → String) (mss : ℕ) : List SegmentResult × List SegEvent :=
  segLoop P df col mss (uniqueSegments df col)

/-! Concrete instantiations of the primitives and small datasets, used to
evaluate the functions at specific inputs. -/

/-- All-zero primitives: enough wherever a result does not depend on the
actual CDF/quantile values. -/
def trivPrims : StatPrims :=
  { sqrt := fun _ => 0, normPpf := fun _ => 0,
    normCdf := fun _ => 0, chi2cdf1 := fun _ => 0 }

/-- Primitives whose quantile is the strictly monotone, odd-around-1/2 map
`p ↦ 4p - 2` (so `ppf(p) + ppf(1-p) = 0`, as for the true normal quantile)
and whose square root is exact on the two perfect squares `4/9` and
`16/81`. -/
def linPrims : StatPrims :=
  { sqrt := fun q => if q = 4 / 9 then 2 / 3 else if q = 16 / 81 then 4 / 9 else 0,
    normPpf := fun p => 4 * p - 2,
    normCdf := fun _ => 0, chi2cdf1 := fun _ => 0 }

/-- Primitives with `Φ(0) = 1/2` (as for the true normal CDF) and a square
root exact at `1/4`. -/
def cdfPrims : StatPrims :=
  { sqrt := fun q => if q = 1 / 4 then 1 / 2 else 0,
    normPpf := fun _ => 0,
    normCdf := fun x => if x = 0 then 1 / 2 else 0, chi2cdf1 := fun _ => 0 }

/-- One control and one treatment record, none converted. -/
def dfBalanced : Dataset :=
  [{ variant := .control, converted := false, order_value := 0, segment := "a" },
   { variant := .treatment, converted := false, order_value := 0, segment := "a" }]

/-- Control never converts, treatment always does. -/
def dfZeroControlRate : Dataset :=
  [{ variant := .control, converted := false, order_value := 0, segment := "a" },
   { variant := .treatment, converted := true, order_value := 0, segment := "a" }]

/-- A treatment-only dataset. -/
def dfOnlyTreatment : Dataset :=
  [{ variant := .treatment, converted := true, order_value := 5, segment := "a" }]

/-- A control-only dataset. -/
def dfOnlyControl : Dataset :=
  [{ variant := .control, converted := true, order_value := 5, segment := "a" }]

/-- Both variants with two sessions and one conversion each
(identical rates of 1/2). -/
def dfHalf : Dataset :=
  [{ variant := .control, converted := true, order_value := 0, segment := "a" },
   { variant := .control, converted := false, order_value := 0, segment := "a" },
   { variant := .treatment, converted := true, order_value := 0, segment := "a" },
   { variant := .treatment, converted := false, order_value := 0, segment := "a" }]

/-- Three control sessions with one conversion (rate 1/3, which does not
round-trip through 4-decimal rounding) and one converted treatment session. -/
def dfThirds : Dataset :=
  [{ variant := .control, converted := true, order_value := 0, segment := "a" },
   { variant := .control, converted := false, order_value := 0, segment := "a" },
   { variant := .control, converted := false, order_value := 0, segment := "a" },
   { variant := .treatment, converted := true, order_value := 0, segment := "a" }]

/-- The control summary row of `dfThirds`: 3 sessions, 1 conversion, and
the rounded conversion rate 0.3333. -/
def sThirds : VariantSummary :=
  { sessions := 3, conversions := 1, conversion_rate := 3333 / 10000,
    total_revenue := 0, revenue_per_user := 0 }

/-- One converted record per variant, all in segment "a": far below the
default minimum sample size. -/
def dfSegSmall : Dataset :=
  [{ variant := .control, converted := true, order_value := 0, segment := "a" },
   { variant := .treatment, converted := true, order_value := 0, segment := "a" }]

/-- Five converted records per variant in segment "a": passes the gate once
`min_sample_size ≤ 5`. -/
def dfSegBig : Dataset :=
  List.replicate 5 { variant := .control, converted := true, order_value := 0, segment := "a" } ++
  List.replicate 5 { variant := .treatment, converted := true, order_value := 0, segment := "a" }

/-! Helper lemmas. -/

/-- The groupby summary has no row for a variant exactly when the dataset
has no record of it. -/
theorem summarizeVariant_eq_none_iff (df : Dataset) (v : Variant) :
    summarizeVariant df v = none ↔ countVariant df v = 0 := by
  unfold summarizeVariant countVariant
  dsimp only
  split
  · simp_all
  · simp_all

/-- Inversion of a successful summary-row lookup: the fields are the
aggregates of the variant's group, and the group is nonempty. -/
theorem summarizeVariant_some (df : Dataset) (v : Variant) (s : VariantSummary)
    (h : summarizeVariant df v = some s) :
    s.sessions = (df.filter (fun r => r.variant = v)).length ∧
    s.conversions = countConversions (df.filter (fun r => r.variant = v)) ∧
    s.conversion_rate = round4 ((s.conversions : ℚ) / (s.sessions : ℚ)) ∧
    s.total_revenue = round4 (sumRevenue (df.filter (fun r => r.variant = v))) ∧
    s.revenue_per_user = s.total_revenue / (s.sessions : ℚ) ∧
    0 < s.sessions := by
  unfold summarizeVariant at h
  dsimp only at h
  by_cases h0 : (df.filter (fun r => r.variant = v)).length = 0
  · simp [h0] at h
  · rw [if_neg h0, Option.some.injEq] at h
    subst h
    exact ⟨rfl, rfl, rfl, rfl, rfl, Nat.pos_of_ne_zero h0⟩

/-- Rounding half-to-even moves a rational by at most one half. -/
theorem abs_roundHalfEven_sub_le (x : ℚ) : |(roundHalfEven x : ℚ) - x| ≤ 1 / 2 := by
  have h0 : (⌊x⌋ : ℚ) ≤ x := Int.floor_le x
  have h1 : x < ⌊x⌋ + 1 := Int.lt_floor_add_one x
  unfold roundHalfEven
  dsimp only
  split_ifs with ha hb hc
  · rw [abs_le]; constructor <;> linarith
  · rw [abs_le]; push_cast; constructor <;> linarith
  · rw [abs_le]; constructor <;> linarith
  · rw [abs_le]; push_cast; constructor <;> linarith

/-- Rounding to four decimals moves a rational by at most 1/20000. -/
theorem abs_round4_sub_le (q : ℚ) : |round4 q - q| ≤ 1 / 20000 := by
  have h := abs_roundHalfEven_sub_le (q * 10000)
  unfold round4
  have heq : (roundHalfEven (q * 10000) : ℚ) / 10000 - q
      = ((roundHalfEven (q * 10000) : ℚ) - q * 10000) / 10000 := by ring
  rw [heq, abs_div]
  rw [show |(10000 : ℚ)| = 10000 by norm_num]
  rw [div_le_iff₀ (by norm_num : (0:ℚ) < 10000)]
  calc |(roundHalfEven (q * 10000) : ℚ) - q * 10000| ≤ 1 / 2 := h
    _ = 1 / 20000 * 10000 := by norm_num

/-- Evaluation rule for `roundHalfEven` when the fractional part is below
one half. -/
theorem roundHalfEven_eval_lt (q : ℚ) (f : ℤ) (h1 : (f : ℚ) ≤ q)
    (h2 : q < f + 1) (h3 : q - f < 1 / 2) : roundHalfEven q = f := by
  have hf : ⌊q⌋ = f := by
    rw [Int.floor_eq_iff]
    exact ⟨h1, h2⟩
  unfold roundHalfEven
  dsimp only
  rw [hf, if_pos h3]

/-- Evaluation rule for `round4` when the scaled fractional part is below
one half. -/
theorem round4_eval_lt (q : ℚ) (f : ℤ) (h1 : (f : ℚ) ≤ q * 10000)
    (h2 : q * 10000 < f + 1) (h3 : q * 10000 - f < 1 / 2) :
    round4 q = (f : ℚ) / 10000 := by
  unfold round4
  rw [roundHalfEven_eval_lt (q * 10000) f h1 h2 h3]

/-- `round4` fixes 0. -/
theorem round4_zero : round4 0 = 0 := by
  rw [round4_eval_lt 0 0 (by norm_num) (by norm_num) (by norm_num)]
  norm_num

/-- `round4` fixes 1. -/
theorem round4_one : round4 1 = 1 := by
  rw [round4_eval_lt 1 10000 (by norm_num) (by norm_num) (by norm_num)]
  norm_num

/-- `round4` fixes 1/2. -/
theorem round4_half : round4 (1 / 2) = 1 / 2 := by
  rw [round4_eval_lt (1 / 2) 5000 (by norm_num) (by norm_num) (by norm_num)]
  norm_num

/-- `round4` truncates 1/3 to 0.3333. -/
theorem round4_third : round4 (1 / 3) = 3333 / 10000 := by
  rw [round4_eval_lt (1 / 3) 3333 (by norm_num) (by norm_num) (by norm_num)]
  norm_num

/-! Claim C1: behaviour of the SRM check on degenerate inputs. -/

/-- C1 counterexample: on a dataset with one record per variant and
`expected_ratio = 0` (a degenerate split), `check_srm` does NOT fail with
any error: the zero expected cell is divided under numpy semantics, the
statistic is `inf`, the p-value is 0, and `passed = false` is returned —
contradicting the claim that this input fails with a DomainError. -/
theorem srm_no_degenerate_guard_counterexample :
    check_sample_ratio_mismatch trivPrims dfBalanced 0 (1 / 1000) =
      .ok { control_count := 1, treatment_count := 1, chi2_stat := .inf,
            p_value := .fin 0, passed := false } := by
  unfold check_sample_ratio_mismatch
  norm_num [show countVariant dfBalanced .control = 1 from rfl,
    show countVariant dfBalanced .treatment = 1 from rfl,
    npDivQ, npAdd, npSub, npNeg, npChi2cdf1, npGtBool, trivPrims]

/-- C1 (amended): when `total = 0` the division by zero is an unguarded
plain-Python `ZeroDivisionError`; when `expected_ratio` is 0 or 1 with a
nonzero total, `check_srm` returns normally with a non-finite chi-square
statistic (numpy `inf`/`nan` propagation) and `passed = false`. -/
theorem srm_degenerate_behavior (P : StatPrims) (df : Dataset) (sp alpha : ℚ)
    (halpha : 0 ≤ alpha) :
    (countVariant df .control + countVariant df .treatment = 0 →
       check_sample_ratio_mismatch P df sp alpha = .error .zeroDivision) ∧
    (countVariant df .control + countVariant df .treatment ≠ 0 → sp = 0 ∨ sp = 1 →
       ∃ out, check_sample_ratio_mismatch P df sp alpha = .ok out ∧
         out.chi2_stat.isFinite = false ∧ out.passed = false) := by
  constructor
  · intro h
    unfold check_sample_ratio_mismatch
    rw [if_pos h]
  · intro htot hsp
    unfold check_sample_ratio_mismatch
    rw [if_neg htot]
    set c := countVariant df .control with hc
    set t := countVariant df .treatment with ht
    have htQ : (c : ℚ) + (t : ℚ) ≠ 0 := by
      have := Nat.cast_ne_zero (R := ℚ).mpr htot
      push_cast at this
      exact this
    have halpha' : ¬ alpha < 0 := not_lt.mpr halpha
    rcases hsp with rfl | rfl
    · -- expected_ratio = 0: the control expected cell is zero
      refine ⟨_, rfl, ?_, ?_⟩ <;>
      · by_cases hc0 : (c : ℚ) = 0
        · simp [npDivQ, npAdd, npSub, npNeg, npChi2cdf1, npGtBool,
            NpVal.isFinite, hc0, htQ]
        · have hc2 : (0:ℚ) < (c : ℚ) ^ 2 := by positivity
          simp [npDivQ, npAdd, npSub, npNeg, npChi2cdf1, npGtBool,
            NpVal.isFinite, hc2, htQ, halpha']
    · -- expected_ratio = 1: the treatment expected cell is zero
      refine ⟨_, rfl, ?_, ?_⟩ <;>
      · by_cases ht0 : (t : ℚ) = 0
        · have hcQ : (c : ℚ) ≠ 0 := by
            intro h0
            exact htQ (by rw [h0, ht0, add_zero])
          simp [npDivQ, npAdd, npSub, npNeg, npChi2cdf1, npGtBool,
            NpVal.isFinite, ht0, hcQ, htQ]
        · have ht2 : (0:ℚ) < (t : ℚ) ^ 2 := by positivity
          simp [npDivQ, npAdd, npSub, npNeg, npChi2cdf1, npGtBool,
            NpVal.isFinite, ht2, htQ, halpha']

/-- C1 witness: the empty dataset raises the division error, and the
balanced two-record dataset with `expected_ratio = 0` returns a non-finite
statistic with `passed = false`. -/
theorem srm_degenerate_behavior_witness :
    check_sample_ratio_mismatch trivPrims ([] : Dataset) (1 / 2) (1 / 1000) =
      .error .zeroDivision ∧
    ∃ out, check_sample_ratio_mismatch trivPrims dfBalanced 0 (1 / 1000) = .ok out ∧
      out.chi2_stat.isFinite = false ∧ out.passed = false :=
  ⟨(srm_degenerate_behavior trivPrims [] (1 / 2) (1 / 1000) (by norm_num)).1 (by decide),
   (srm_degenerate_behavior trivPrims dfBalanced 0 (1 / 1000) (by norm_num)).2
     (by decide) (Or.inl rfl)⟩

/-! Claim C3: the SRM result on non-degenerate inputs. -/

/-- C3: for every dataset with nonzero total and non-degenerate expected
ratio, `check_srm` succeeds and yields the observed counts, the chi-square
statistic Σ (observed − expected)²/expected over the two cells, the p-value
`1 − chi_square_cdf(statistic, df = 1)`, and `passed = p_value > alpha`. -/
theorem srm_formulas (P : StatPrims) (df : Dataset) (sp alpha : ℚ)
    (htotal : countVariant df .control + countVariant df .treatment ≠ 0)
    (h0 : sp ≠ 0) (h1 : sp ≠ 1) :
    check_sample_ratio_mismatch P df sp alpha =
      .ok { control_count := countVariant df .control,
            treatment_count := countVariant df .treatment,
            chi2_stat := .fin (specSRMStatistic df sp),
            p_value := .fin (1 - P.chi2cdf1 (specSRMStatistic df sp)),
            passed := decide (alpha < 1 - P.chi2cdf1 (specSRMStatistic df sp)) } := by
  unfold check_sample_ratio_mismatch specSRMStatistic
  rw [if_neg htotal]
  have htQ : ((countVariant df .control + countVariant df .treatment : ℕ) : ℚ) ≠ 0 :=
    Nat.cast_ne_zero.mpr htotal
  have hec : ((countVariant df .control + countVariant df .treatment : ℕ) : ℚ) * sp ≠ 0 :=
    mul_ne_zero htQ h0
  have het : ((countVariant df .control + countVariant df .treatment : ℕ) : ℚ) * (1 - sp) ≠ 0 :=
    mul_ne_zero htQ (sub_ne_zero.mpr (Ne.symm h1))
  simp only [npDivQ, hec, het, ne_eq, not_true_eq_false, not_false_eq_true, if_true,
    ite_true, npAdd, npChi2cdf1, npSub, npNeg, npGtBool]
  push_cast
  norm_num [sub_eq_add_neg]

/-- C3 witness: on the balanced two-record dataset with a 50/50 expected
split, the statistic is 0, the p-value is `1 − chi2cdf(0)` = 1 under the
trivial primitives, and the check passes at alpha = 0.001. -/
theorem srm_formulas_witness :
    check_sample_ratio_mismatch trivPrims dfBalanced (1 / 2) (1 / 1000) =
      .ok { control_count := 1, treatment_count := 1, chi2_stat := .fin 0,
            p_value := .fin 1, passed := true } := by
  have h := srm_formulas trivPrims dfBalanced (1 / 2) (1 / 1000)
    (by decide) (by norm_num) (by norm_num)
  rw [h]
  norm_num [specSRMStatistic, trivPrims,
    show countVariant dfBalanced .control = 1 from rfl,
    show countVariant dfBalanced .treatment = 1 from rfl]

/-! Claim C5: missing variants abort the primary analysis. -/

/-- C5: a dataset lacking control records makes `analyze` fail at the
control summary-row lookup, and one lacking treatment records (with control
present) fail at the treatment lookup — no other failure mode and no silent
zero. -/
theorem analyze_missing_variant (P : StatPrims) (df : Dataset) :
    (countVariant df .control = 0 →
       analyze_conversion_rate P df = .error (.missingKey "control")) ∧
    (countVariant df .control ≠ 0 → countVariant df .treatment = 0 →
       analyze_conversion_rate P df = .error (.missingKey "treatment")) := by
  constructor
  · intro h
    have hc : summarizeVariant df .control = none := (summarizeVariant_eq_none_iff df _).mpr h
    simp [analyze_conversion_rate, hc]
  · intro hc ht
    have hc' : summarizeVariant df .control ≠ none := fun hn =>
      hc ((summarizeVariant_eq_none_iff df _).mp hn)
    obtain ⟨c, hcs⟩ := Option.ne_none_iff_exists'.mp hc'
    have ht' : summarizeVariant df .treatment = none := (summarizeVariant_eq_none_iff df _).mpr ht
    simp [analyze_conversion_rate, hcs, ht']

/-- C5 witness: a treatment-only dataset errors on the control lookup, and a
control-only dataset errors on the treatment lookup. -/
theorem analyze_missing_variant_witness :
    analyze_conversion_rate trivPrims dfOnlyTreatment = .error (.missingKey "control") ∧
    analyze_conversion_rate trivPrims dfOnlyControl = .error (.missingKey "treatment") :=
  ⟨(analyze_missing_variant trivPrims dfOnlyTreatment).1 (by decide),
   (analyze_missing_variant trivPrims dfOnlyControl).2 (by decide) (by decide)⟩

/-! Concrete evaluations of the per-variant summary rows. -/

/-- Summary row of the control group of `dfZeroControlRate`. -/
theorem summarize_dfZCR_control :
    summarizeVariant dfZeroControlRate .control = some ⟨1, 0, 0, 0, 0⟩ := by
  unfold summarizeVariant
  dsimp only
  rw [show dfZeroControlRate.filter (fun r => r.variant = Variant.control) =
    [{ variant := .control, converted := false, order_value := 0, segment := "a" }] from rfl]
  norm_num [countConversions, sumRevenue, round4_zero]

/-- Summary row of the treatment group of `dfZeroControlRate`. -/
theorem summarize_dfZCR_treatment :
    summarizeVariant dfZeroControlRate .treatment = some ⟨1, 1, 1, 0, 0⟩ := by
  unfold summarizeVariant
  dsimp only
  rw [show dfZeroControlRate.filter (fun r => r.variant = Variant.treatment) =
    [{ variant := .treatment, converted := true, order_value := 0, segment := "a" }] from rfl]
  norm_num [countConversions, sumRevenue, round4_zero, round4_one]

/-- Summary row of the control group of `dfBalanced`. -/
theorem summarize_dfBalanced_control :
    summarizeVariant dfBalanced .control = some ⟨1, 0, 0, 0, 0⟩ := by
  unfold summarizeVariant
  dsimp only
  rw [show dfBalanced.filter (fun r => r.variant = Variant.control) =
    [{ variant := .control, converted := false, order_value := 0, segment := "a" }] from rfl]
  norm_num [countConversions, sumRevenue, round4_zero]

/-- Summary row of the treatment group of `dfBalanced`. -/
theorem summarize_dfBalanced_treatment :
    summarizeVariant dfBalanced .treatment = some ⟨1, 0, 0, 0, 0⟩ := by
  unfold summarizeVariant
  dsimp only
  rw [show dfBalanced.filter (fun r => r.variant = Variant.treatment) =
    [{ variant := .treatment, converted := false, order_value := 0, segment := "a" }] from rfl]
  norm_num [countConversions, sumRevenue, round4_zero]

/-- Summary row of the control group of `dfHalf`. -/
theorem summarize_dfHalf_control :
    summarizeVariant dfHalf .control = some ⟨2, 1, 1 / 2, 0, 0⟩ := by
  unfold summarizeVariant
  dsimp only
  rw [show dfHalf.filter (fun r => r.variant = Variant.control) =
    [{ variant := .control, converted := true, order_value := 0, segment := "a" },
     { variant := .control, converted := false, order_value := 0, segment := "a" }] from rfl]
  norm_num [countConversions, sumRevenue, round4_zero, round4_half,
    show countConversions
      [{ variant := .control, converted := true, order_value := 0, segment := "a" },
       { variant := .control, converted := false, order_value := 0, segment := "a" }] = 1 from rfl]

/-- Summary row of the treatment group of `dfHalf`. -/
theorem summarize_dfHalf_treatment :
    summarizeVariant dfHalf .treatment = some ⟨2, 1, 1 / 2, 0, 0⟩ := by
  unfold summarizeVariant
  dsimp only
  rw [show dfHalf.filter (fun r => r.variant = Variant.treatment) =
    [{ variant := .treatment, converted := true, order_value := 0, segment := "a" },
     { variant := .treatment, converted := false, order_value := 0, segment := "a" }] from rfl]
  norm_num [countConversions, sumRevenue, round4_zero, round4_half,
    show countConversions
      [{ variant := .treatment, converted := true, order_value := 0, segment := "a" },
       { variant := .treatment, converted := false, order_value := 0, segment := "a" }] = 1 from rfl]

/-- Summary row of the control group of `dfThirds`: the reported
conversion rate is the rounded 0.3333, not 1/3. -/
theorem summarize_dfThirds_control :
    summarizeVariant dfThirds .control = some ⟨3, 1, 3333 / 10000, 0, 0⟩ := by
  unfold summarizeVariant
  dsimp only
  rw [show dfThirds.filter (fun r => r.variant = Variant.control) =
    [{ variant := .control, converted := true, order_value := 0, segment := "a" },
     { variant := .control, converted := false, order_value := 0, segment := "a" },
     { variant := .control, converted := false, order_value := 0, segment := "a" }] from rfl]
  norm_num [countConversions, sumRevenue, round4_zero, round4_third,
    show countConversions
      [{ variant := .control, converted := true, order_value := 0, segment := "a" },
       { variant := .control, converted := false, order_value := 0, segment := "a" },
       { variant := .control, converted := false, order_value := 0, segment := "a" }] = 1 from rfl]

/-- Summary row of the treatment group of `dfThirds`. -/
theorem summarize_dfThirds_treatment :
    summarizeVariant dfThirds .treatment = some ⟨1, 1, 1, 0, 0⟩ := by
  unfold summarizeVariant
  dsimp only
  rw [show dfThirds.filter (fun r => r.variant = Variant.treatment) =
    [{ variant := .treatment, converted := true, order_value := 0, segment := "a" }] from rfl]
  norm_num [countConversions, sumRevenue, round4_zero, round4_one]

/-! Claim C4: a zero control rate in the primary analysis. -/

/-- C4 counterexample: with one unconverted control session and one
converted treatment session, the control rate is exactly 0, yet `analyze`
does NOT fail: it returns normally, with `relative_lift = inf` produced by
numpy division — contradicting the claim of a DomainError. -/
theorem relative_lift_zero_counterexample :
    analyze_conversion_rate trivPrims dfZeroControlRate =
      .ok { summary_control := ⟨1, 0, 0, 0, 0⟩, summary_treatment := ⟨1, 1, 1, 0, 0⟩,
            control_rate := 0, treatment_rate := 1, z_stat := .inf, p_value := .fin 0,
            absolute_lift := 1, relative_lift := .inf } := by
  simp only [analyze_conversion_rate, summarize_dfZCR_control, summarize_dfZCR_treatment]
  norm_num [proportions_ztest, npDivQ, npAdd, npSub, npNeg, npMul, trivPrims]

/-- C4 (amended): when both variants are present and the control group's
conversion rate is exactly 0, `analyze` does not fail: numpy float division
makes `relative_lift` evaluate to `inf` (when the treatment rate is
positive) or `nan` (when it is 0 as well), and this non-finite value is
returned as part of a normal result. -/
theorem relative_lift_zero_behavior (P : StatPrims) (df : Dataset)
    (c t : VariantSummary)
    (hc : summarizeVariant df .control = some c)
    (ht : summarizeVariant df .treatment = some t)
    (hconv : c.conversions = 0) :
    ∃ out, analyze_conversion_rate P df = .ok out ∧
      out.control_rate = 0 ∧
      out.relative_lift = (if 0 < t.conversions then NpVal.inf else NpVal.nan) ∧
      out.relative_lift.isFinite = false := by
  have hts : 0 < t.sessions := (summarizeVariant_some df .treatment t ht).2.2.2.2.2
  have hcr : (c.conversions : ℚ) / (c.sessions : ℚ) = 0 := by
    rw [hconv]
    simp
  have hrel : npMul (npSub (npDivQ ((t.conversions : ℚ) / (t.sessions : ℚ))
        ((c.conversions : ℚ) / (c.sessions : ℚ))) (.fin 1)) (.fin 100)
      = (if 0 < t.conversions then NpVal.inf else NpVal.nan) := by
    rw [hcr]
    rcases Nat.eq_zero_or_pos t.conversions with h0 | hpos
    · simp [h0, npDivQ, npSub, npNeg, npAdd, npMul]
    · have htr : (0:ℚ) < (t.conversions : ℚ) / (t.sessions : ℚ) :=
        div_pos (by exact_mod_cast hpos) (by exact_mod_cast hts)
      simp [npDivQ, npSub, npNeg, npAdd, npMul, htr, hpos]
  simp only [analyze_conversion_rate, hc, ht]
  refine ⟨_, rfl, hcr, hrel, ?_⟩
  dsimp only
  rw [hrel]
  split <;> rfl

/-- C4 witness: the concrete zero-control-rate dataset exercises the
amended claim, with `relative_lift = inf`. -/
theorem relative_lift_zero_behavior_witness :
    ∃ out, analyze_conversion_rate trivPrims dfZeroControlRate = .ok out ∧
      out.control_rate = 0 ∧ out.relative_lift = NpVal.inf := by
  obtain ⟨out, h1, h2, h3, _⟩ := relative_lift_zero_behavior trivPrims dfZeroControlRate
    ⟨1, 0, 0, 0, 0⟩ ⟨1, 1, 1, 0, 0⟩ summarize_dfZCR_control summarize_dfZCR_treatment rfl
  exact ⟨out, h1, h2, by simpa using h3⟩

/-! Claim C9: identical conversion rates in the primary analysis. -/

/-- C9 counterexample: on a dataset whose two variants have exactly equal
conversion rates of 0 (one unconverted session each, nonzero sessions, both
variants present), the pooled standard error is 0, so the z-statistic is
the numpy `nan` (0/0) and the p-value is `nan` — not 0 and 1.0 as the claim
states for every equal-rate dataset. -/
theorem analyze_equal_rates_counterexample :
    (analyze_conversion_rate trivPrims dfBalanced =
      .ok { summary_control := ⟨1, 0, 0, 0, 0⟩, summary_treatment := ⟨1, 0, 0, 0, 0⟩,
            control_rate := 0, treatment_rate := 0, z_stat := .nan, p_value := .nan,
            absolute_lift := 0, relative_lift := .nan }) ∧
    NpVal.nan ≠ NpVal.fin 1 ∧ NpVal.nan ≠ NpVal.fin 0 := by
  refine ⟨?_, by decide, by decide⟩
  simp only [analyze_conversion_rate, summarize_dfBalanced_control,
    summarize_dfBalanced_treatment]
  norm_num [proportions_ztest, npDivQ, npAdd, npSub, npNeg, npMul, trivPrims]

/-- C9 (amended): on a dataset whose variants have exactly equal conversion
rates with the common rate strictly between 0 and 1 (so the pooled standard
error is nonzero), `analyze` yields `absolute_lift = 0`, `z_statistic = 0`
and `p_value = 1` exactly, given that the normal CDF primitive satisfies
`Φ(0) = 1/2`. -/
theorem analyze_equal_rates (P : StatPrims) (df : Dataset)
    (c t : VariantSummary) (r : ℚ)
    (hc : summarizeVariant df .control = some c)
    (ht : summarizeVariant df .treatment = some t)
    (hrc : (c.conversions : ℚ) / (c.sessions : ℚ) = r)
    (hrt : (t.conversions : ℚ) / (t.sessions : ℚ) = r)
    (hr0 : 0 < r) (hr1 : r < 1)
    (hPhi : P.normCdf 0 = 1 / 2)
    (hse : P.sqrt ((((t.conversions : ℚ) + (c.conversions : ℚ)) /
          ((t.sessions : ℚ) + (c.sessions : ℚ))) *
        (1 - ((t.conversions : ℚ) + (c.conversions : ℚ)) /
          ((t.sessions : ℚ) + (c.sessions : ℚ))) *
        (1 / (t.sessions : ℚ) + 1 / (c.sessions : ℚ))) ≠ 0) :
    ∃ out, analyze_conversion_rate P df = .ok out ∧
      out.absolute_lift = 0 ∧ out.z_stat = .fin 0 ∧ out.p_value = .fin 1 := by
  simp only [one_div] at hse
  simp only [analyze_conversion_rate, hc, ht, proportions_ztest]
  refine ⟨_, rfl, ?_, ?_, ?_⟩
  · dsimp only
    rw [hrt, hrc, sub_self]
  · dsimp only
    rw [hrt, hrc, sub_self]
    simp [npDivQ, hse]
  · dsimp only
    rw [hrt, hrc, sub_self]
    simp [npDivQ, hse, hPhi]
    norm_num

/-- C9 witness: both variants of `dfHalf` convert at exactly 1/2; with a
CDF primitive satisfying `Φ(0) = 1/2` the analysis yields zero lift, a zero
z-statistic, and p-value 1. -/
theorem analyze_equal_rates_witness :
    ∃ out, analyze_conversion_rate cdfPrims dfHalf = .ok out ∧
      out.absolute_lift = 0 ∧ out.z_stat = .fin 0 ∧ out.p_value = .fin 1 :=
  analyze_equal_rates cdfPrims dfHalf ⟨2, 1, 1 / 2, 0, 0⟩ ⟨2, 1, 1 / 2, 0, 0⟩ (1 / 2)
    summarize_dfHalf_control summarize_dfHalf_treatment (by norm_num) (by norm_num)
    (by norm_num) (by norm_num) (by norm_num [cdfPrims]) (by norm_num [cdfPrims])

/-! Claim C10: rounding of the reported conversion summary. -/

/-- C10: every summary row's `conversion_rate` and `total_revenue` are
rounded to 4 decimal places (so the reported rate sits within 1/20000 of
the exact ratio), `revenue_per_user` is computed from the already-rounded
`total_revenue`; and on `dfThirds` the reported control conversion rate
(0.3333) differs from the exact ratio 1/3 that the hypothesis test and lift
computations use. -/
theorem summary_rounding :
    (∀ (df : Dataset) (v : Variant) (s : VariantSummary),
      summarizeVariant df v = some s →
        s.conversion_rate = round4 ((s.conversions : ℚ) / (s.sessions : ℚ)) ∧
        s.total_revenue = round4 (sumRevenue (df.filter (fun r => r.variant = v))) ∧
        s.revenue_per_user = s.total_revenue / (s.sessions : ℚ) ∧
        |s.conversion_rate - (s.conversions : ℚ) / (s.sessions : ℚ)| ≤ 1 / 20000) ∧
    (∃ out, analyze_conversion_rate trivPrims dfThirds = .ok out ∧
      out.control_rate =
        (out.summary_control.conversions : ℚ) / (out.summary_control.sessions : ℚ) ∧
      out.summary_control.conversion_rate ≠ out.control_rate) := by
  constructor
  · intro df v s h
    obtain ⟨_, _, h3, h4, h5, _⟩ := summarizeVariant_some df v s h
    refine ⟨h3, h4, h5, ?_⟩
    rw [h3]
    exact abs_round4_sub_le _
  · simp only [analyze_conversion_rate, summarize_dfThirds_control,
      summarize_dfThirds_treatment]
    refine ⟨_, rfl, rfl, ?_⟩
    dsimp only
    norm_num

/-- C10 witness: the control row of `dfThirds` carries the rounded rate, at
distance at most 1/20000 from the exact ratio. -/
theorem summary_rounding_witness :
    sThirds.conversion_rate = round4 ((sThirds.conversions : ℚ) / (sThirds.sessions : ℚ)) ∧
    |sThirds.conversion_rate - (sThirds.conversions : ℚ) / (sThirds.sessions : ℚ)| ≤ 1 / 20000 := by
  have h := summary_rounding.1 dfThirds .control sThirds summarize_dfThirds_control
  exact ⟨h.1, h.2.2.2⟩

/-! Segmentation loop helper lemmas. -/

/-- The loop body skips a segment exactly when the gate fails. -/
theorem segStep_eq_none_iff (P : StatPrims) (df : Dataset) (col : Record → String)
    (mss : ℕ) (s : String) :
    segStep P df col mss s = none ↔ ¬ segGate df col mss s := by
  unfold segStep
  dsimp only
  split
  · simp_all
  · simp_all

/-- A produced row passes the gate, is labelled by its segment, and carries
exactly the aggregates, the z-test outcome, the fallback relative lift, and
the 0.05 significance flag of the loop body. -/
theorem segStep_some_inv (P : StatPrims) (df : Dataset) (col : Record → String)
    (mss : ℕ) (s : String) (r : SegmentResult)
    (h : segStep P df col mss s = some r) :
    segGate df col mss s ∧
    r.segment = s ∧
    (r.control_sessions = (segControl df col s).length ∧
     r.treatment_sessions = (segTreatment df col s).length ∧
     r.control_rate =
       (countConversions (segControl df col s) : ℚ) / ((segControl df col s).length : ℚ) ∧
     r.treatment_rate =
       (countConversions (segTreatment df col s) : ℚ) / ((segTreatment df col s).length : ℚ) ∧
     r.absolute_lift = r.treatment_rate - r.control_rate ∧
     r.relative_lift =
       (if 0 < r.control_rate then (r.treatment_rate / r.control_rate - 1) * 100 else 0) ∧
     r.p_value = (proportions_ztest P
         (countConversions (segTreatment df col s) : ℚ) ((segTreatment df col s).length : ℚ)
         (countConversions (segControl df col s) : ℚ) ((segControl df col s).length : ℚ)).2 ∧
     r.significant = npLtBool r.p_value (1 / 20)) := by
  unfold segStep at h
  dsimp only at h
  split at h
  · next hgate =>
    rw [Option.some.injEq] at h
    subst h
    exact ⟨hgate, rfl, rfl, rfl, rfl, rfl, rfl, rfl, rfl, rfl⟩
  · exact absurd h (by simp)

/-- A gated-in segment produces a row. -/
theorem segStep_isSome_of_gate (P : StatPrims) (df : Dataset) (col : Record → String)
    (mss : ℕ) (s : String) (hgate : segGate df col mss s) :
    ∃ r, segStep P df col mss s = some r := by
  unfold segStep
  dsimp only
  rw [if_pos hgate]
  exact ⟨_, rfl⟩

/-- Membership in the accumulated rows of the loop. -/
theorem segLoop_results_mem (P : StatPrims) (df : Dataset) (col : Record → String)
    (mss : ℕ) (l : List String) (r : SegmentResult) :
    r ∈ (segLoop P df col mss l).1 ↔ ∃ s ∈ l, segStep P df col mss s = some r := by
  induction l with
  | nil => simp [segLoop]
  | cons a rest ih =>
    rw [segLoop]
    cases hstep : segStep P df col mss a with
    | some r0 =>
      dsimp only
      constructor
      · intro hr
        rcases List.mem_cons.mp hr with rfl | hr'
        · exact ⟨a, List.mem_cons_self a rest, hstep⟩
        · obtain ⟨s, hs, h⟩ := ih.mp hr'
          exact ⟨s, List.mem_cons_of_mem a hs, h⟩
      · rintro ⟨s, hs, h⟩
        rcases List.mem_cons.mp hs with rfl | hs'
        · rw [hstep, Option.some.injEq] at h
          exact List.mem_cons.mpr (Or.inl h.symm)
        · exact List.mem_cons_of_mem r0 (ih.mpr ⟨s, hs', h⟩)
    | none =>
      dsimp only
      constructor
      · intro hr
        obtain ⟨s, hs, h⟩ := ih.mp hr
        exact ⟨s, List.mem_cons_of_mem a hs, h⟩
      · rintro ⟨s, hs, h⟩
        rcases List.mem_cons.mp hs with rfl | hs'
        · rw [hstep] at h
          cases h
        · exact ih.mpr ⟨s, hs', h⟩

/-- Every gate-failing segment of the iteration list gets an
"insufficient" line in the printed report. -/
theorem segLoop_insufficient_mem (P : StatPrims) (df : Dataset) (col : Record → String)
    (mss : ℕ) (l : List String) (s : String) (hs : s ∈ l)
    (hnone : segStep P df col mss s = none) :
    SegEvent.insufficientLine s ∈ (segLoop P df col mss l).2 := by
  induction l with
  | nil => cases hs
  | cons a rest ih =>
    rw [segLoop]
    rcases List.mem_cons.mp hs with rfl | hs'
    · rw [hnone]
      dsimp only
      exact List.mem_cons_self _ _
    · cases hstep : segStep P df col mss a <;> dsimp only <;>
        exact List.mem_cons_of_mem _ (ih hs')

/-- When every segment of the iteration list is skipped, no rows are
accumulated. -/
theorem segLoop_results_nil_of_all_none (P : StatPrims) (df : Dataset)
    (col : Record → String) (mss : ℕ) (l : List String)
    (h : ∀ s ∈ l, segStep P df col mss s = none) :
    (segLoop P df col mss l).1 = [] := by
  induction l with
  | nil => rfl
  | cons a rest ih =>
    rw [segLoop, h a (List.mem_cons_self a rest)]
    dsimp only
    exact ih (fun s hs => h s (List.mem_cons_of_mem a hs))

/-! Claim C2: reporting of insufficient-sample segments. -/

/-- C2 counterexample: on `dfSegSmall` the single segment "a" fails the
gate, yet the value `segmentation_analysis` returns (the DataFrame built
from `segment_results`) is empty — the failing segment appears in no
returned row, marked or otherwise; only a printed line mentions it. -/
theorem segments_insufficient_dropped_counterexample :
    (segmentation_analysis trivPrims dfSegSmall (fun r => r.segment) 100).1 = [] ∧
    uniqueSegments dfSegSmall (fun r => r.segment) = ["a"] ∧
    ¬ segGate dfSegSmall (fun r => r.segment) 100 "a" := by
  refine ⟨?_, by decide, by decide⟩
  exact segLoop_results_nil_of_all_none _ _ _ _ _ (by decide)

/-- C2 (amended): a segment failing the gate is reported only through the
printed "insufficient sample" line; it is omitted from the returned result
rows entirely (no returned row carries its label), and when every segment
fails the gate the returned row sequence is empty. -/
theorem segments_insufficient_reporting (P : StatPrims) (df : Dataset)
    (col : Record → String) (mss : ℕ) :
    (∀ s ∈ uniqueSegments df col, ¬ segGate df col mss s →
       SegEvent.insufficientLine s ∈ (segmentation_analysis P df col mss).2 ∧
       ∀ r ∈ (segmentation_analysis P df col mss).1, r.segment ≠ s) ∧
    ((∀ s ∈ uniqueSegments df col, ¬ segGate df col mss s) →
       (segmentation_analysis P df col mss).1 = []) := by
  constructor
  · intro s hs hgate
    have hnone : segStep P df col mss s = none :=
      (segStep_eq_none_iff P df col mss s).mpr hgate
    refine ⟨segLoop_insufficient_mem P df col mss _ s hs hnone, ?_⟩
    intro r hr hseg
    obtain ⟨s', hs', hstep⟩ :=
      (segLoop_results_mem P df col mss _ r).mp hr
    have h2 : r.segment = s' := (segStep_some_inv P df col mss s' r hstep).2.1
    rw [hseg] at h2
    rw [← h2] at hstep
    rw [hnone] at hstep
    cases hstep
  · intro h
    exact segLoop_results_nil_of_all_none P df col mss _
      (fun s hs => (segStep_eq_none_iff P df col mss s).mpr (h s hs))

/-- C2 witness: on `dfSegSmall` with the default gate of 100, segment "a"
produces the printed insufficient line and the returned rows are empty. -/
theorem segments_insufficient_reporting_witness :
    SegEvent.insufficientLine "a" ∈
      (segmentation_analysis trivPrims dfSegSmall (fun r => r.segment) 100).2 ∧
    (segmentation_analysis trivPrims dfSegSmall (fun r => r.segment) 100).1 = [] := by
  have h := segments_insufficient_reporting trivPrims dfSegSmall (fun r => r.segment) 100
  exact ⟨(h.1 "a" (by decide) (by decide)).1, h.2 (by decide)⟩

/-! Claim C7: the segment gate and the tested rows' fields. -/

/-- C7: a segment contributes a returned row exactly when
control sessions ≥ min_sample_size, treatment sessions ≥ min_sample_size,
control conversions ≥ 5 and treatment conversions ≥ 5; and each such row
carries the two-proportion z-test p-value, `significant = p_value < 0.05`,
and a `relative_lift` that falls back to 0 on a zero control rate. -/
theorem segment_gate_and_test (P : StatPrims) (df : Dataset) (col : Record → String)
    (mss : ℕ) (s : String) (hs : s ∈ uniqueSegments df col) :
    ((∃ r ∈ (segmentation_analysis P df col mss).1, r.segment = s) ↔
       segGate df col mss s) ∧
    (∀ r ∈ (segmentation_analysis P df col mss).1, r.segment = s →
      r.control_sessions = (segControl df col s).length ∧
      r.treatment_sessions = (segTreatment df col s).length ∧
      r.control_rate =
        (countConversions (segControl df col s) : ℚ) / ((segControl df col s).length : ℚ) ∧
      r.treatment_rate =
        (countConversions (segTreatment df col s) : ℚ) / ((segTreatment df col s).length : ℚ) ∧
      r.absolute_lift = r.treatment_rate - r.control_rate ∧
      r.relative_lift =
        (if 0 < r.control_rate then (r.treatment_rate / r.control_rate - 1) * 100 else 0) ∧
      r.p_value = (proportions_ztest P
          (countConversions (segTreatment df col s) : ℚ) ((segTreatment df col s).length : ℚ)
          (countConversions (segControl df col s) : ℚ) ((segControl df col s).length : ℚ)).2 ∧
      r.significant = npLtBool r.p_value (1 / 20)) := by
  constructor
  · constructor
    · rintro ⟨r, hr, hseg⟩
      obtain ⟨s', hs', hstep⟩ := (segLoop_results_mem P df col mss _ r).mp hr
      have h2 : r.segment = s' := (segStep_some_inv P df col mss s' r hstep).2.1
      rw [hseg] at h2
      rw [← h2] at hstep
      exact (segStep_some_inv P df col mss s r hstep).1
    · intro hgate
      obtain ⟨r, hstep⟩ := segStep_isSome_of_gate P df col mss s hgate
      exact ⟨r, (segLoop_results_mem P df col mss _ r).mpr ⟨s, hs, hstep⟩,
        (segStep_some_inv P df col mss s r hstep).2.1⟩
  · intro r hr hseg
    obtain ⟨s', hs', hstep⟩ := (segLoop_results_mem P df col mss _ r).mp hr
    have h2 : r.segment = s' := (segStep_some_inv P df col mss s' r hstep).2.1
    rw [hseg] at h2
    rw [← h2] at hstep
    exact (segStep_some_inv P df col mss s r hstep).2.2

/-- C7 witness: with `min_sample_size = 1`, the all-converting ten-record
segment "a" of `dfSegBig` passes the gate and contributes a returned row. -/
theorem segment_gate_and_test_witness :
    ∃ r ∈ (segmentation_analysis trivPrims dfSegBig (fun r => r.segment) 1).1,
      r.segment = "a" :=
  (segment_gate_and_test trivPrims dfSegBig (fun r => r.segment) 1 "a"
    (by decide)).1.mpr (by decide)

/-! Claim C6: the closed-form sample-size computation. -/

/-- C6: for every valid input, `plan` returns exactly
`ceil( ((normal_quantile(1−alpha/2) + normal_quantile(power)) ·
sqrt(2·p_pooled·(1−p_pooled)) / minimum_effect)² )` with
`p_pooled = (p1+p2)/2`; equivalently (since the square root is squared
again) the sqrt-free rational closed form. -/
theorem sample_size_closed_form (P : StatPrims) (b me alpha pw : ℚ)
    (h1 : 0 < b) (h2 : b < 1) (h3 : 0 < b + me) (h4 : b + me < 1) (h5 : me ≠ 0)
    (h6 : 0 < alpha) (h7 : alpha < 1) (h8 : 0 < pw) (h9 : pw < 1)
    (hsq : (P.sqrt (2 * ((b + (b + me)) / 2) * (1 - (b + (b + me)) / 2))) ^ 2
        = 2 * ((b + (b + me)) / 2) * (1 - (b + (b + me)) / 2)) :
    calculate_sample_size P b me alpha pw =
      ⌈((P.normPpf (1 - alpha / 2) + P.normPpf pw) *
          P.sqrt (2 * ((b + (b + me)) / 2) * (1 - (b + (b + me)) / 2)) / me) ^ 2⌉ ∧
    calculate_sample_size P b me alpha pw =
      ⌈(P.normPpf (1 - alpha / 2) + P.normPpf pw) ^ 2 *
          (2 * ((b + (b + me)) / 2) * (1 - (b + (b + me)) / 2)) / me ^ 2⌉ := by
  constructor
  · rfl
  · unfold calculate_sample_size
    dsimp only
    congr 1
    rw [div_pow, mul_pow, hsq]

/-- C6 witness: `plan(0.25, 1/6, alpha = 0.05, power = 0.8)` with the
piecewise-exact primitives evaluates to 154, matching the closed form. -/
theorem sample_size_closed_form_witness :
    calculate_sample_size linPrims (1 / 4) (1 / 6) (1 / 20) (4 / 5) = 154 := by
  rw [(sample_size_closed_form linPrims (1 / 4) (1 / 6) (1 / 20) (4 / 5)
    (by norm_num) (by norm_num) (by norm_num) (by norm_num) (by norm_num)
    (by norm_num) (by norm_num) (by norm_num) (by norm_num)
    (by norm_num [linPrims])).2]
  rw [Int.ceil_eq_iff]
  norm_num [linPrims]

/-! Claim C8: sign and monotonicity of the sample-size computation. -/

/-- C8 counterexample: at the valid input `baseline_rate = 1/4`,
`minimum_effect = 1/6`, `alpha = 1/2`, `power = 1/4` the two critical
values cancel exactly (`power = alpha/2`, and the normal quantile is odd
around 1/2), so `plan` returns 0 — not a positive integer. -/
theorem sample_size_positive_counterexample :
    ((0:ℚ) < 1 / 4 ∧ (1 / 4 : ℚ) < 1 ∧ (1 / 6 : ℚ) ≠ 0 ∧
      (0:ℚ) < 1 / 4 + 1 / 6 ∧ (1 / 4 : ℚ) + 1 / 6 < 1 ∧
      (0:ℚ) < 1 / 2 ∧ (1 / 2 : ℚ) < 1 ∧ (0:ℚ) < 1 / 4 ∧ (1 / 4 : ℚ) < 1) ∧
    calculate_sample_size linPrims (1 / 4) (1 / 6) (1 / 2) (1 / 4) = 0 := by
  refine ⟨by norm_num, ?_⟩
  unfold calculate_sample_size
  dsimp only
  norm_num [linPrims]

/-- C8 (amended): `plan` always returns a non-negative integer; it is
positive whenever the z-sum `normal_quantile(1−alpha/2) +
normal_quantile(power)` is nonzero (for the true quantile this excludes
exactly `power = alpha/2`); holding the rest fixed it is non-decreasing as
`minimum_effect` shrinks toward 0 through positive values; and it is
non-decreasing as `power` grows provided the z-sum is non-negative at the
smaller power (for the true quantile, whenever `power ≥ alpha/2` — below
that point the squared z-sum shrinks and monotonicity genuinely fails). -/
theorem sample_size_sign_monotone (P : StatPrims) (b me me2 alpha pw pw2 : ℚ) :
    0 ≤ calculate_sample_size P b me alpha pw ∧
    (me ≠ 0 → 0 < b → b < 1 → 0 < b + me → b + me < 1 →
      (P.sqrt (2 * ((b + (b + me)) / 2) * (1 - (b + (b + me)) / 2))) ^ 2
          = 2 * ((b + (b + me)) / 2) * (1 - (b + (b + me)) / 2) →
      P.normPpf (1 - alpha / 2) + P.normPpf pw ≠ 0 →
      1 ≤ calculate_sample_size P b me alpha pw) ∧
    (0 < me2 → me2 ≤ me → 0 < b → b + me < 1 →
      (P.sqrt (2 * ((b + (b + me)) / 2) * (1 - (b + (b + me)) / 2))) ^ 2
          = 2 * ((b + (b + me)) / 2) * (1 - (b + (b + me)) / 2) →
      (P.sqrt (2 * ((b + (b + me2)) / 2) * (1 - (b + (b + me2)) / 2))) ^ 2
          = 2 * ((b + (b + me2)) / 2) * (1 - (b + (b + me2)) / 2) →
      calculate_sample_size P b me alpha pw ≤ calculate_sample_size P b me2 alpha pw) ∧
    (0 ≤ P.normPpf (1 - alpha / 2) + P.normPpf pw →
      P.normPpf pw ≤ P.normPpf pw2 →
      calculate_sample_size P b me alpha pw ≤ calculate_sample_size P b me alpha pw2) := by
  refine ⟨?_, ?_, ?_, ?_⟩
  · unfold calculate_sample_size
    dsimp only
    exact Int.ceil_nonneg (sq_nonneg _)
  · intro hme hb hb1 hbme hbme1 hsq hz
    unfold calculate_sample_size
    dsimp only
    have hval : 0 < 2 * ((b + (b + me)) / 2) * (1 - (b + (b + me)) / 2) := by
      have hp1 : 0 < (b + (b + me)) / 2 := by linarith
      have hp2 : (b + (b + me)) / 2 < 1 := by linarith
      have := mul_pos (mul_pos (by norm_num : (0:ℚ) < 2) hp1) (by linarith : (0:ℚ) < 1 - (b + (b + me)) / 2)
      linarith
    have hs : P.sqrt (2 * ((b + (b + me)) / 2) * (1 - (b + (b + me)) / 2)) ≠ 0 := by
      intro h0
      rw [h0] at hsq
      rw [show ((0:ℚ) ^ 2) = 0 from by norm_num] at hsq
      exact absurd hsq.symm (ne_of_gt hval)
    have hn : 0 < ((P.normPpf (1 - alpha / 2) + P.normPpf pw) *
        P.sqrt (2 * ((b + (b + me)) / 2) * (1 - (b + (b + me)) / 2)) / me) ^ 2 :=
      pow_two_pos_of_ne_zero (div_ne_zero (mul_ne_zero hz hs) hme)
    have := Int.ceil_pos.mpr hn
    omega
  · intro hme2 hle hb hbme1 hsq hsq2
    unfold calculate_sample_size
    dsimp only
    apply Int.ceil_le_ceil
    have hme : 0 < me := lt_of_lt_of_le hme2 hle
    rw [div_pow, div_pow, mul_pow, mul_pow, hsq, hsq2]
    rw [div_le_div_iff₀ (pow_pos hme 2) (pow_pos hme2 2)]
    have hb1 : b < 1 := by linarith
    have hkey : (2 * ((b + (b + me2)) / 2) * (1 - (b + (b + me2)) / 2)) * me ^ 2
        - (2 * ((b + (b + me)) / 2) * (1 - (b + (b + me)) / 2)) * me2 ^ 2
        = (me - me2) * (2 * b * (1 - b) * (me + me2) + (1 - 2 * b) * (me * me2)) := by
      ring
    have hB : 0 ≤ 2 * b * (1 - b) * (me + me2) + (1 - 2 * b) * (me * me2) := by
      rcases le_or_lt b (1 / 2) with hb2 | hb2
      · have t1 : 0 ≤ 2 * b * (1 - b) * (me + me2) := by
          apply mul_nonneg (mul_nonneg (by linarith) (by linarith)) (by linarith)
        have t2 : 0 ≤ (1 - 2 * b) * (me * me2) :=
          mul_nonneg (by linarith) (mul_nonneg hme.le hme2.le)
        linarith
      · have hmlt : me < 1 - b := by linarith
        have u1 : me * me2 ≤ (1 - b) * me2 :=
          mul_le_mul_of_nonneg_right hmlt.le hme2.le
        nlinarith [mul_nonneg (by linarith : (0:ℚ) ≤ 2 * b - 1)
            (sub_nonneg.mpr u1),
          mul_nonneg (mul_nonneg (by linarith : (0:ℚ) ≤ 1 - b)
            (by linarith : (0:ℚ) ≤ 2 * b)) hme.le,
          mul_nonneg (by linarith : (0:ℚ) ≤ 1 - b) hme2.le]
    have hD : 0 ≤ (me - me2) * (2 * b * (1 - b) * (me + me2) + (1 - 2 * b) * (me * me2)) :=
      mul_nonneg (by linarith) hB
    nlinarith [mul_nonneg (sq_nonneg (P.normPpf (1 - alpha / 2) + P.normPpf pw))
      (hkey ▸ hD)]
  · intro hz hmono
    unfold calculate_sample_size
    dsimp only
    apply Int.ceil_le_ceil
    have hshape : ∀ z : ℚ, (z * P.sqrt (2 * ((b + (b + me)) / 2) * (1 - (b + (b + me)) / 2)) / me) ^ 2
        = z ^ 2 * (P.sqrt (2 * ((b + (b + me)) / 2) * (1 - (b + (b + me)) / 2)) / me) ^ 2 := by
      intro z
      ring
    rw [hshape, hshape]
    apply mul_le_mul_of_nonneg_right ?_ (sq_nonneg _)
    exact pow_le_pow_left₀ hz (by linarith) 2

/-- C8 witness: with the monotone odd quantile model, at
`b = 1/18, alpha = 0.05` the plan is non-negative and positive at
`(me, pw) = (5/9, 1/2)`, shrinking the effect to `1/9` does not decrease
it, and raising the power to `3/4` does not decrease it. -/
theorem sample_size_sign_monotone_witness :
    0 ≤ calculate_sample_size linPrims (1 / 18) (5 / 9) (1 / 20) (1 / 2) ∧
    1 ≤ calculate_sample_size linPrims (1 / 18) (5 / 9) (1 / 20) (1 / 2) ∧
    calculate_sample_size linPrims (1 / 18) (5 / 9) (1 / 20) (1 / 2) ≤
      calculate_sample_size linPrims (1 / 18) (1 / 9) (1 / 20) (1 / 2) ∧
    calculate_sample_size linPrims (1 / 18) (5 / 9) (1 / 20) (1 / 2) ≤
      calculate_sample_size linPrims (1 / 18) (5 / 9) (1 / 20) (3 / 4) := by
  have h := sample_size_sign_monotone linPrims (1 / 18) (5 / 9) (1 / 9) (1 / 20) (1 / 2) (3 / 4)
  exact ⟨h.1,
    h.2.1 (by norm_num) (by norm_num) (by norm_num) (by norm_num) (by norm_num)
      (by norm_num [linPrims]) (by norm_num [linPrims]),
    h.2.2.1 (by norm_num) (by norm_num) (by norm_num) (by norm_num)
      (by norm_num [linPrims]) (by norm_num [linPrims]),
    h.2.2.2 (by norm_num [linPrims]) (by norm_num [linPrims])⟩

end ABTest
